import Mathlib

/-!
Shallow embedding of the `dparrini/tempfile` library
(`src/tempfile.cpp`, `include/tempfile/tempfile.hpp`).

We embed the `_WIN32` branch of the platform-conditional code: the
POSIX (`#else`) branch of `paths_to_try` does not compile as written
(it pushes an out-of-scope variable `path` inside the
`{"/tmp", "/var/tmp", "/usr/tmp"}` loop), so the Windows branch is the
only complete instantiation of the source.

The filesystem capability (`std::filesystem`) is modelled as an explicit
state `Fsys` holding the set of directory paths and the set of
regular-file paths that exist; paths are flat strings, exactly as the
C++ code manipulates them.  `std::rand()` is modelled as a stream
`rs : Nat → Nat` of non-negative values together with a cursor counting
how many calls have been consumed.  The process-wide mutex only
serialises calls, which the sequential embedding reflects trivially.
-/

/-- C++ `path_separator` (the `_WIN32` branch: a single backslash). -/
def path_separator : String := "\\"

/-- C++ `max_path_length` (the `_WIN32` branch: `MAX_PATH`, i.e. 260). -/
def max_path_length : Nat := 260

/-- The filesystem state: which paths exist as directories and which as
regular files. -/
structure Fsys where
  dirs : List String
  files : List String
deriving DecidableEq

/-- C++ `directory_exists` (`std::filesystem::is_directory`). -/
def directory_exists (fs : Fsys) (p : String) : Bool :=
  decide (p ∈ fs.dirs)

/-- C++ `file_exists` (`std::filesystem::exists`: true for any existing
filesystem object). -/
def file_exists (fs : Fsys) (p : String) : Bool :=
  decide (p ∈ fs.files) || decide (p ∈ fs.dirs)

/-- C++ `make_directory` (`std::filesystem::create_directory`): creates
the directory and reports `true` iff no object already exists at `p`. -/
def make_directory (fs : Fsys) (p : String) : Bool × Fsys :=
  if p ∈ fs.dirs ∨ p ∈ fs.files then (false, fs)
  else (true, ⟨p :: fs.dirs, fs.files⟩)

/-- Whether `q` is `p` itself or lies strictly below directory `p`. -/
def isUnder (q p : String) : Bool :=
  q == p || (p ++ path_separator).isPrefixOf q

/-- C++ `remove_file` (`std::filesystem::remove` on a regular file). -/
def remove_file (fs : Fsys) (p : String) : Fsys :=
  ⟨fs.dirs, fs.files.filter (fun q => q != p)⟩

/-- C++ `remove_directory` (`std::filesystem::remove_all`): removes `p`
and everything underneath it, directories and files alike. -/
def remove_directory (fs : Fsys) (p : String) : Fsys :=
  ⟨fs.dirs.filter (fun q => !(isUnder q p)),
   fs.files.filter (fun q => !(isUnder q p))⟩

/-- Whether `f` is a direct child of directory `p` (no separator after
stripping `p ++ path_separator`). -/
def directChild (p f : String) : Bool :=
  (p ++ path_separator).isPrefixOf f
    && !((f.drop (p ++ path_separator).length).contains '\\')

/-- C++ `get_files_in_directory`: the regular files directly inside `p`
(`std::filesystem::directory_iterator` filtered by `is_regular_file`). -/
def get_files_in_directory (fs : Fsys) (p : String) : List String :=
  fs.files.filter (fun f => directChild p f)

/-- C++ `randrange`: `_min + std::rand() % (_max - _min)`, where `r`
stands for the (non-negative) value returned by `std::rand()`. -/
def randrange (lo hi r : Nat) : Nat :=
  lo + r % (hi - lo)

/-- C++ `characters`: the string literal
`"abcdefghijklmnopqrstuvwxyz0123456789_"` (37 characters; note that
`random_name` only ever indexes it with `randrange(0, 36)`). -/
def characters : List Char :=
  "abcdefghijklmnopqrstuvwxyz0123456789_".toList

/-- C++ `random_name`: an 8-character name whose `i`-th character is
`characters[randrange(0, 36)]`, consuming one `std::rand()` value per
character; `rs` is the `rand` stream and `c` the cursor of the first
value consumed. -/
def random_name (rs : Nat → Nat) (c : Nat) : String :=
  String.mk ((List.range 8).map
    (fun i => characters.getD (randrange 0 36 (rs (c + i))) ' '))

/-- The process environment: `getenv` returns `none` for an unset
variable (a set-but-empty variable returns `some ""`). -/
def Env : Type := String → Option String

/-- C++ `paths_to_try` (the `_WIN32` branch): the `TEMP`/`TMP`/`TMPDIR`
environment variables in that order (each contributing whenever
`getenv` is non-null), then `%SYSTEMROOT%\Temp`,
`%USERPROFILE%\AppData\Local\Temp`, the literals `c:\temp` and
`c:\tmp`, and finally the working directory from `CD`. -/
def paths_to_try (env : Env) : List String :=
  (["TEMP", "TMP", "TMPDIR"].filterMap env)
    ++ ((match env "SYSTEMROOT" with
         | some r => [r ++ "\\Temp"]
         | none => [])
      ++ (match env "USERPROFILE" with
          | some u => [u ++ "\\AppData\\Local\\Temp"]
          | none => [])
      ++ ["c:\\temp", "c:\\tmp"])
    ++ (match env "CD" with
        | some w => [w]
        | none => [])

/-- The characters `random_name` can actually produce: the image of
index `randrange 0 36` over all of its 36 possible values.  These are
exactly `a`–`z` and `0`–`9`; the underscore at index 36 of `characters`
is outside the range of `randrange(0, 36)`. -/
def producible : List Char :=
  (List.range 36).map (fun r => characters.getD r ' ')

/-- The inner retry loop of `tempfile::directory::create` for one
candidate base path: up to `fuel` (100 in the source) iterations, each
generating one random name (consuming 8 `rand` values, hence the cursor
advances by 8 per attempt); an over-long combined path and an existing
path each `continue`, a failed `create_directory` falls through to the
next iteration, and a successful creation returns the path and the
updated filesystem at once. -/
def tryBase (fs : Fsys) (pre base : String) (rs : Nat → Nat) :
    Nat → Nat → Option (String × Fsys) × Nat
  | c, 0 => (none, c)
  | c, fuel + 1 =>
    if base.length + path_separator.length + pre.length
        + (random_name rs c).length + 1 > max_path_length then
      tryBase fs pre base rs (c + 8) fuel
    else if directory_exists fs
        (base ++ path_separator ++ pre ++ random_name rs c) then
      tryBase fs pre base rs (c + 8) fuel
    else if (make_directory fs
        (base ++ path_separator ++ pre ++ random_name rs c)).1 then
      (some (base ++ path_separator ++ pre ++ random_name rs c,
             (make_directory fs
               (base ++ path_separator ++ pre ++ random_name rs c)).2),
       c + 8)
    else
      tryBase fs pre base rs (c + 8) fuel

/-- The outer loop of `tempfile::directory::create` over the candidate
base paths, giving each base a budget of 100 attempts and stopping at
the first success. -/
def createLoop (fs : Fsys) (pre : String) (rs : Nat → Nat) :
    List String → Nat → Option (String × Fsys) × Nat
  | [], c => (none, c)
  | b :: bs, c =>
    match tryBase fs pre b rs c 100 with
    | (some r, c1) => (some r, c1)
    | (none, c1) => createLoop fs pre rs bs c1

namespace tempfile

/-- The C++ `tempfile::directory` handle.  Field names: `good` is the
C++ member `_good`, `pref` the prefix member (its C++ spelling is kept
out of Lean identifiers), `path` the member `_path`. -/
structure directory where
  good : Bool
  pref : String
  path : String
deriving DecidableEq

/-- The `tempfile::directory` constructor: `_good(false)`, the prefix
stored, `_path` default-constructed (empty). -/
def directory.construct (pre : String) : directory :=
  ⟨false, pre, ""⟩

/-- The member `tempfile::directory::create`: fails immediately when
`!_path.empty() && _good`; otherwise runs the retry loops over
`paths_to_try()` and, on success, stores the path and sets `_good`.
Returns (result, handle, filesystem, rand cursor). -/
def directory.create (d : directory) (fs : Fsys) (env : Env)
    (rs : Nat → Nat) (c : Nat) : Bool × directory × Fsys × Nat :=
  if (d.path != "") && d.good then (false, d, fs, c)
  else
    match createLoop fs d.pref rs (paths_to_try env) c with
    | (some (p, fs1), c1) => (true, ⟨true, d.pref, p⟩, fs1, c1)
    | (none, c1) => (false, d, fs, c1)

/-- The member `tempfile::directory::remove`: when `_good` and the directory still
exists, removes every regular file directly inside it, then removes the
directory recursively, and returns `true`; otherwise returns `false`.
Note that the source never resets `_good` or `_path`. -/
def directory.remove (d : directory) (fs : Fsys) :
    Bool × directory × Fsys :=
  if d.good && directory_exists fs d.path then
    (true, d,
     remove_directory
       ((get_files_in_directory fs d.path).foldl remove_file fs)
       d.path)
  else (false, d, fs)

/-- The `tempfile::directory` destructor: calls `remove()` and ignores
the result. -/
def directory.destroy (d : directory) (fs : Fsys) : Fsys :=
  (directory.remove d fs).2.2

/-- The `tempfile::scoped_directory` constructor: constructs the base
`directory` and eagerly calls `create()` (ignoring its result). -/
def scoped_directory.construct (pre : String) (fs : Fsys) (env : Env)
    (rs : Nat → Nat) (c : Nat) : directory × Fsys × Nat :=
  ((directory.construct pre).create fs env rs c).2

/-- The `tempfile::scoped_directory` destructor: calls `remove()`, and
then the base-class `~directory` runs, which calls `remove()` again. -/
def scoped_directory.destroy (d : directory) (fs : Fsys) : Fsys :=
  directory.destroy (directory.remove d fs).2.1 (directory.remove d fs).2.2

/-- The C++ `tempfile::file` handle (also used for `scoped_file`).
Field names as for `directory`. -/
structure file where
  good : Bool
  pref : String
  path : String
deriving DecidableEq

/-- The `tempfile::file` constructor: `_good(false)`, prefix stored,
`_path` empty.  It performs no filesystem operation. -/
def file.construct (pre : String) : file :=
  ⟨false, pre, ""⟩

/-- The member `tempfile::file::remove`: removes the file and returns `true` when
`_good` and the path exists; otherwise returns `false`. -/
def file.remove (f : file) (fs : Fsys) : Bool × file × Fsys :=
  if f.good && file_exists fs f.path then
    (true, f, remove_file fs f.path)
  else (false, f, fs)

/-- The `tempfile::file` destructor: removes the file iff `_good` and
the path exists. -/
def file.destroy (f : file) (fs : Fsys) : Fsys :=
  if f.good && file_exists fs f.path then remove_file fs f.path else fs

/-- The `tempfile::scoped_file` constructor: constructs the base `file`
and nothing else — the body is empty, so the filesystem is untouched. -/
def scoped_file.construct (pre : String) (fs : Fsys) : file × Fsys :=
  (file.construct pre, fs)

/-- The `tempfile::scoped_file` destructor: calls `remove()`, then the
base-class `~file` destructor body runs. -/
def scoped_file.destroy (f : file) (fs : Fsys) : Fsys :=
  file.destroy (file.remove f fs).2.1 (file.remove f fs).2.2

end tempfile

/-! Concrete inputs used by the witness and counterexample theorems. -/

/-- An environment with no variables set: the candidate list is then
just the two fixed literals `c:\temp`, `c:\tmp`. -/
def envNone : Env := fun _ => none

/-- An environment in which `TEMP` is set but empty. -/
def envTempEmpty : Env := fun v => if v == "TEMP" then some "" else none

/-- An environment in which `TEMP` holds the one-character path `b`. -/
def envTempB : Env := fun v => if v == "TEMP" then some "b" else none

/-- A `rand` stream that always returns 0, so every generated name is
`aaaaaaaa`. -/
def rsZero : Nat → Nat := fun _ => 0

/-- A valid directory handle owning `c:\tmp\tmpaaaaaaaa`. -/
def dirA : tempfile.directory := ⟨true, "tmp", "c:\\tmp\\tmpaaaaaaaa"⟩

/-- A filesystem in which `dirA`'s directory exists and holds one file. -/
def fsA : Fsys :=
  ⟨["c:\\tmp", "c:\\tmp\\tmpaaaaaaaa"],
   ["c:\\tmp\\tmpaaaaaaaa\\inner.txt"]⟩

/-- A valid directory handle owning `c:\tmp\tmpbbbbbbbb`. -/
def dirB : tempfile.directory := ⟨true, "tmp", "c:\\tmp\\tmpbbbbbbbb"⟩

/-- A filesystem in which `dirB`'s directory exists with a direct file,
a subdirectory containing a file, and an unrelated outside file. -/
def fsB : Fsys :=
  ⟨["c:\\tmp", "c:\\tmp\\tmpbbbbbbbb", "c:\\tmp\\tmpbbbbbbbb\\sub"],
   ["c:\\tmp\\tmpbbbbbbbb\\a.txt", "c:\\tmp\\tmpbbbbbbbb\\sub\\b.txt",
    "c:\\other.txt"]⟩

/-- A fresh directory handle with prefix `X`. -/
def dirX : tempfile.directory := tempfile.directory.construct "X"

/-- A filesystem already containing both paths that `dirX` can ever try
under `envNone` and `rsZero`, so every creation attempt collides. -/
def fsX : Fsys := ⟨["c:\\temp\\Xaaaaaaaa", "c:\\tmp\\Xaaaaaaaa"], []⟩

/-- A fresh directory handle with the default prefix `tmp`. -/
def dirT : tempfile.directory := tempfile.directory.construct "tmp"

/-- A fresh (hence never-good) file handle. -/
def fileT : tempfile.file := tempfile.file.construct "tmp"

/-- The empty filesystem. -/
def fsEmpty : Fsys := ⟨[], []⟩

/-- The directory-handle invariant of claim C10: a good handle owns a
non-empty path. -/
def dirInv (d : tempfile.directory) : Prop :=
  d.good = true → d.path ≠ ""

/-- The candidate list as the spec's section 4.1 describes it, amended
only in that a temp environment variable contributes its value whenever
the variable is set — even when the value is empty (the source checks
`getenv(var) != nullptr` and nothing else).  Order: `TEMP`, `TMP`,
`TMPDIR`; then the system roots derived from `SYSTEMROOT` and
`USERPROFILE` and the fixed literals; last the working directory from
`CD`. -/
def candidate_list_amended (env : Env) : List String :=
  ((env "TEMP").toList ++ (env "TMP").toList ++ (env "TMPDIR").toList)
    ++ (((env "SYSTEMROOT").map (fun r => r ++ "\\Temp")).toList
      ++ ((env "USERPROFILE").map
            (fun u => u ++ "\\AppData\\Local\\Temp")).toList
      ++ ["c:\\temp", "c:\\tmp"])
    ++ (env "CD").toList

/-! Helper lemmas about the embedded operations. -/

theorem random_name_length (rs : Nat → Nat) (c : Nat) :
    (random_name rs c).length = 8 := by
  simp [random_name, String.length]

theorem random_name_mem_producible (rs : Nat → Nat) (c : Nat) :
    ∀ ch ∈ (random_name rs c).toList, ch ∈ producible := by
  intro ch hch
  simp only [random_name, String.toList, List.mem_map] at hch
  obtain ⟨i, -, hi⟩ := hch
  subst hi
  refine List.mem_map.mpr ⟨randrange 0 36 (rs (c + i)), List.mem_range.mpr ?_, rfl⟩
  simp only [randrange]
  omega

theorem make_directory_true {fs : Fsys} {p : String}
    (h : (make_directory fs p).1 = true) :
    (make_directory fs p).2 = ⟨p :: fs.dirs, fs.files⟩ := by
  by_cases hc : p ∈ fs.dirs ∨ p ∈ fs.files <;>
    simp [make_directory, hc] at h ⊢

theorem directory_exists_remove_directory (fs : Fsys) (p : String) :
    directory_exists (remove_directory fs p) p = false := by
  simp [directory_exists, remove_directory, List.mem_filter, isUnder]

theorem remove_handle_id (d : tempfile.directory) (fs : Fsys) :
    (tempfile.directory.remove d fs).2.1 = d := by
  unfold tempfile.directory.remove
  split <;> rfl

theorem remove_twice (d : tempfile.directory) (fs : Fsys) :
    tempfile.directory.remove (tempfile.directory.remove d fs).2.1
        (tempfile.directory.remove d fs).2.2
      = (false, (tempfile.directory.remove d fs).2.1,
         (tempfile.directory.remove d fs).2.2) := by
  by_cases hg : (d.good && directory_exists fs d.path) = true
  · have hg' : d.good = true := by
      rcases Bool.and_eq_true_iff.mp hg with ⟨h1, -⟩
      exact h1
    simp only [tempfile.directory.remove, hg, if_pos]
    simp [tempfile.directory.remove, hg', directory_exists_remove_directory]
  · simp [tempfile.directory.remove, hg]

theorem tryBase_cursor_bound (fs : Fsys) (pre b : String) (rs : Nat → Nat) :
    ∀ fuel c0, (tryBase fs pre b rs c0 fuel).2 ≤ c0 + 8 * fuel := by
  intro fuel
  induction fuel with
  | zero => intro c0; simp [tryBase]
  | succ n ih =>
    intro c0
    simp only [tryBase]
    split
    · have := ih (c0 + 8); omega
    · split
      · have := ih (c0 + 8); omega
      · split
        · simp only []
          omega
        · have := ih (c0 + 8); omega

theorem tryBase_some (fs : Fsys) (pre b : String) (rs : Nat → Nat) :
    ∀ fuel c0 p fs1, (tryBase fs pre b rs c0 fuel).1 = some (p, fs1) →
      ∃ k, p = b ++ path_separator ++ pre ++ random_name rs k ∧
        (make_directory fs p).1 = true ∧ fs1 = (make_directory fs p).2 := by
  intro fuel
  induction fuel with
  | zero => intro c0 p fs1 h; simp [tryBase] at h
  | succ n ih =>
    intro c0 p fs1 h
    simp only [tryBase] at h
    split at h
    · exact ih (c0 + 8) p fs1 h
    · split at h
      · exact ih (c0 + 8) p fs1 h
      · split at h
        · rename_i hmk
          simp only [Prod.fst, Option.some.injEq, Prod.mk.injEq] at h
          obtain ⟨hp, hfs⟩ := h
          subst hp
          exact ⟨c0, rfl, hmk, hfs.symm⟩
        · exact ih (c0 + 8) p fs1 h

theorem createLoop_some (fs : Fsys) (pre : String) (rs : Nat → Nat) :
    ∀ bs c0 p fs1, (createLoop fs pre rs bs c0).1 = some (p, fs1) →
      ∃ b ∈ bs, ∃ k, p = b ++ path_separator ++ pre ++ random_name rs k ∧
        (make_directory fs p).1 = true ∧ fs1 = (make_directory fs p).2 := by
  intro bs
  induction bs with
  | nil => intro c0 p fs1 h; simp [createLoop] at h
  | cons b bs ih =>
    intro c0 p fs1 h
    simp only [createLoop] at h
    rcases h1 : tryBase fs pre b rs c0 100 with ⟨res, c1⟩
    rw [h1] at h
    cases res with
    | some r =>
      simp only [Option.some.injEq] at h
      obtain ⟨k, hk⟩ := tryBase_some fs pre b rs 100 c0 p fs1 (by
        rw [h1]
        simpa using h)
      exact ⟨b, List.mem_cons_self b bs, k, hk⟩
    | none =>
      obtain ⟨b2, hb2, hrest⟩ := ih c1 p fs1 h
      exact ⟨b2, List.mem_cons_of_mem b hb2, hrest⟩

theorem built_path_ne_empty (b pre2 nm : String) (hnm : nm.length = 8) :
    b ++ path_separator ++ pre2 ++ nm ≠ "" := by
  intro h
  have hl : (b ++ path_separator ++ pre2 ++ nm).length = 0 := by rw [h]; rfl
  have hsep : path_separator.length = 1 := rfl
  simp only [String.length_append] at hl
  omega

/-! The claims. -/

/-- C3: the claim says a `scoped_file` constructor performs a file
creation step and populates `path` and `valid`.  The source constructor
has an empty body: it merely runs the base `file` constructor, which
sets `_good` to `false` and leaves `_path` empty, and it touches no
filesystem state.  This theorem evaluates the code: after construction
the handle is invalid, the path is empty, and the filesystem is exactly
the one passed in. -/
theorem claim_C3 (pre : String) (fs : Fsys) :
    tempfile.scoped_file.construct pre fs = (⟨false, pre, ""⟩, fs) ∧
    (tempfile.scoped_file.construct pre fs).1.good = false ∧
    (tempfile.scoped_file.construct pre fs).1.path = "" ∧
    (tempfile.scoped_file.construct pre fs).2 = fs :=
  ⟨rfl, rfl, rfl, rfl⟩

/-- C6: `create()` on a handle that is already valid and owns a
non-empty path returns `false` and has no effect whatsoever: the
handle, the filesystem and the `rand` cursor are unchanged, so no
filesystem object is created and the existing path is untouched. -/
theorem claim_C6 (d : tempfile.directory) (fs : Fsys) (env : Env)
    (rs : Nat → Nat) (c : Nat) (hg : d.good = true) (hp : d.path ≠ "") :
    tempfile.directory.create d fs env rs c = (false, d, fs, c) := by
  have hbne : (d.path != "") = true := bne_iff_ne.mpr hp
  simp [tempfile.directory.create, hbne, hg]

/-- Witness for C6: a concrete valid handle on which `create()` is a
no-op returning `false`. -/
theorem claim_C6_witness :
    dirA.good = true ∧ dirA.path ≠ "" ∧
    tempfile.directory.create dirA fsA envNone rsZero 0
      = (false, dirA, fsA, 0) :=
  ⟨rfl, by decide, claim_C6 dirA fsA envNone rsZero 0 rfl (by decide)⟩

/-- C9: a `file` (and hence `scoped_file`) handle is never good: the
constructor initialises the flag to `false`, `remove()` never modifies
the handle at all, and consequently on a never-good handle `remove()`
always returns `false` without touching the filesystem, and both
destructors leave the filesystem unchanged. -/
theorem claim_C9 (pre : String) (f : tempfile.file) (fs : Fsys)
    (h : f.good = false) :
    (tempfile.file.construct pre).good = false ∧
    (tempfile.scoped_file.construct pre fs).1.good = false ∧
    (∀ (g : tempfile.file) (fs2 : Fsys),
      (tempfile.file.remove g fs2).2.1 = g) ∧
    tempfile.file.remove f fs = (false, f, fs) ∧
    tempfile.file.destroy f fs = fs ∧
    tempfile.scoped_file.destroy f fs = fs := by
  refine ⟨rfl, rfl, ?_, ?_, ?_, ?_⟩
  · intro g fs2; unfold tempfile.file.remove; split <;> rfl
  · simp [tempfile.file.remove, h]
  · simp [tempfile.file.destroy, h]
  · simp [tempfile.scoped_file.destroy, tempfile.file.remove,
      tempfile.file.destroy, h]

/-- Witness for C9 at a concrete fresh file handle. -/
theorem claim_C9_witness :
    fileT.good = false ∧
    ((tempfile.file.construct "tmp").good = false ∧
     (tempfile.scoped_file.construct "tmp" fsEmpty).1.good = false ∧
     (∀ (g : tempfile.file) (fs2 : Fsys),
       (tempfile.file.remove g fs2).2.1 = g) ∧
     tempfile.file.remove fileT fsEmpty = (false, fileT, fsEmpty) ∧
     tempfile.file.destroy fileT fsEmpty = fsEmpty ∧
     tempfile.scoped_file.destroy fileT fsEmpty = fsEmpty) :=
  ⟨rfl, claim_C9 "tmp" fileT fsEmpty rfl⟩

/-- C10: the invariant "good implies non-empty path" holds after
construction and is preserved by `create()` and by `remove()`:
construction starts not-good; a successful `create()` stores a path of
the form `base ++ separator ++ prefix ++ name`, which is non-empty; a
failed `create()` and any `remove()` leave the handle's fields as they
were. -/
theorem claim_C10 (pre : String) (d : tempfile.directory) (fs : Fsys)
    (env : Env) (rs : Nat → Nat) (c : Nat) (hd : dirInv d) :
    dirInv (tempfile.directory.construct pre) ∧
    dirInv ((tempfile.directory.create d fs env rs c).2.1) ∧
    dirInv ((tempfile.directory.remove d fs).2.1) := by
  refine ⟨?_, ?_, ?_⟩
  · intro h; simp [tempfile.directory.construct] at h
  · unfold tempfile.directory.create
    split
    · exact hd
    · rcases hcl : createLoop fs d.pref rs (paths_to_try env) c with ⟨res, c1⟩
      cases res with
      | none => exact hd
      | some r =>
        rcases r with ⟨p, fs1⟩
        intro _
        obtain ⟨b, -, k, hkp, -, -⟩ :=
          createLoop_some fs d.pref rs (paths_to_try env) c p fs1 (by rw [hcl])
        show p ≠ ""
        rw [hkp]
        exact built_path_ne_empty b d.pref (random_name rs k)
          (random_name_length rs k)
  · rw [remove_handle_id]; exact hd

/-- Witness for C10 at a concrete fresh handle. -/
theorem claim_C10_witness :
    dirInv dirT ∧
    (dirInv (tempfile.directory.construct "tmp") ∧
     dirInv ((tempfile.directory.create dirT fsEmpty envNone rsZero 0).2.1) ∧
     dirInv ((tempfile.directory.remove dirT fsEmpty).2.1)) := by
  have hd : dirInv dirT := by
    intro h; simp [dirT, tempfile.directory.construct] at h
  exact ⟨hd, claim_C10 "tmp" dirT fsEmpty envNone rsZero 0 hd⟩

/-- C1 counterexample: a concrete handle on which `remove()` succeeds
(returns `true`) yet immediately afterwards `good()` is still `true`
and `path()` is still the original non-empty path — the source never
clears `_good` or `_path` inside `remove()`, contradicting the claim
that a successful removal leaves `good()` false and `path()` empty. -/
theorem claim_C1_counterexample :
    (tempfile.directory.remove dirA fsA).1 = true ∧
    (tempfile.directory.remove dirA fsA).2.1.good = true ∧
    (tempfile.directory.remove dirA fsA).2.1.path
      = "c:\\tmp\\tmpaaaaaaaa" := by decide

/-- C1 (amended): after a `remove()` that succeeds, the handle is
completely unchanged — `good()` remains `true` and `path()` keeps its
value — and a second `remove()` with no intervening `create()` returns
`false` (because the directory no longer exists on disk, not because
the validity flag was cleared) while leaving the filesystem alone. -/
theorem claim_C1 (d : tempfile.directory) (fs : Fsys)
    (h : (tempfile.directory.remove d fs).1 = true) :
    (tempfile.directory.remove d fs).2.1 = d ∧ d.good = true ∧
    (tempfile.directory.remove (tempfile.directory.remove d fs).2.1
        (tempfile.directory.remove d fs).2.2).1 = false ∧
    (tempfile.directory.remove (tempfile.directory.remove d fs).2.1
        (tempfile.directory.remove d fs).2.2).2.2
      = (tempfile.directory.remove d fs).2.2 := by
  have hgd : d.good = true := by
    by_cases hg : (d.good && directory_exists fs d.path) = true
    · exact (Bool.and_eq_true_iff.mp hg).1
    · simp [tempfile.directory.remove, hg] at h
  refine ⟨remove_handle_id d fs, hgd, ?_, ?_⟩
  · rw [remove_twice]
  · rw [remove_twice]

/-- Witness for C1 (amended) at the concrete input of the
counterexample. -/
theorem claim_C1_witness :
    (tempfile.directory.remove dirA fsA).1 = true ∧
    ((tempfile.directory.remove dirA fsA).2.1 = dirA ∧ dirA.good = true ∧
     (tempfile.directory.remove (tempfile.directory.remove dirA fsA).2.1
         (tempfile.directory.remove dirA fsA).2.2).1 = false ∧
     (tempfile.directory.remove (tempfile.directory.remove dirA fsA).2.1
         (tempfile.directory.remove dirA fsA).2.2).2.2
       = (tempfile.directory.remove dirA fsA).2.2) := by
  have h : (tempfile.directory.remove dirA fsA).1 = true := by decide
  exact ⟨h, claim_C1 dirA fsA h⟩

/-- C4: on a handle that is good and whose path still exists as a
directory, `remove()` first removes every regular file directly inside
the directory (left fold of `remove_file` over
`get_files_in_directory`), then removes the directory recursively
(`remove_all`), and returns `true`; afterwards the directory is indeed
gone (the removal it reports on succeeded), every direct regular file
is gone, and so is everything below the directory. -/
theorem claim_C4 (d : tempfile.directory) (fs : Fsys)
    (hg : d.good = true) (he : directory_exists fs d.path = true) :
    tempfile.directory.remove d fs
      = (true, d,
         remove_directory
           ((get_files_in_directory fs d.path).foldl remove_file fs)
           d.path) ∧
    d.path ∉ (tempfile.directory.remove d fs).2.2.dirs ∧
    (∀ f ∈ get_files_in_directory fs d.path,
      f ∉ (tempfile.directory.remove d fs).2.2.files) ∧
    (∀ q, isUnder q d.path = true →
      q ∉ (tempfile.directory.remove d fs).2.2.dirs ∧
      q ∉ (tempfile.directory.remove d fs).2.2.files) := by
  have hrem : tempfile.directory.remove d fs
      = (true, d,
         remove_directory
           ((get_files_in_directory fs d.path).foldl remove_file fs)
           d.path) := by
    simp [tempfile.directory.remove, hg, he]
  refine ⟨hrem, ?_, ?_, ?_⟩
  · rw [hrem]
    simp [remove_directory, List.mem_filter, isUnder]
  · intro f hf
    have hdc : directChild d.path f = true :=
      (List.mem_filter.mp hf).2
    have hpre : ((d.path ++ path_separator).isPrefixOf f) = true :=
      (Bool.and_eq_true_iff.mp hdc).1
    rw [hrem]
    simp only [remove_directory, List.mem_filter]
    rintro ⟨-, hnot⟩
    simp [isUnder, hpre] at hnot
  · intro q hq
    rw [hrem]
    constructor <;>
      · simp only [remove_directory, List.mem_filter]
        rintro ⟨-, hnot⟩
        simp [hq] at hnot

/-- Witness for C4: a concrete good handle whose directory contains a
direct file and a subdirectory with a file inside. -/
theorem claim_C4_witness :
    dirB.good = true ∧ directory_exists fsB dirB.path = true ∧
    (tempfile.directory.remove dirB fsB
      = (true, dirB,
         remove_directory
           ((get_files_in_directory fsB dirB.path).foldl remove_file fsB)
           dirB.path) ∧
     dirB.path ∉ (tempfile.directory.remove dirB fsB).2.2.dirs ∧
     (∀ f ∈ get_files_in_directory fsB dirB.path,
       f ∉ (tempfile.directory.remove dirB fsB).2.2.files) ∧
     (∀ q, isUnder q dirB.path = true →
       q ∉ (tempfile.directory.remove dirB fsB).2.2.dirs ∧
       q ∉ (tempfile.directory.remove dirB fsB).2.2.files)) :=
  ⟨rfl, by decide, claim_C4 dirB fsB rfl (by decide)⟩

/-- C5 counterexample: with `TEMP` set to the empty string, the
candidate list still receives a candidate from it (the empty path, at
the head of the list), refuting "a variable contributes a candidate
only if it is set and non-empty": the source only checks
`getenv(var) != nullptr`. -/
theorem claim_C5_counterexample :
    envTempEmpty "TEMP" = some "" ∧
    paths_to_try envTempEmpty = ["", "c:\\temp", "c:\\tmp"] ∧
    "" ∈ paths_to_try envTempEmpty := by decide

/-- C5 (amended): the candidate list is ordered most-preferred first —
the fixed temp environment variables `TEMP`, `TMP`, `TMPDIR` in that
priority order, where a variable contributes its value whenever it is
set (even when empty); then the platform temp roots (`SYSTEMROOT` and
`USERPROFILE` derived paths, then the fixed literals `c:\temp`,
`c:\tmp`); and last the working directory read from `CD`. -/
theorem claim_C5 (env : Env) :
    paths_to_try env = candidate_list_amended env := by
  simp only [paths_to_try, candidate_list_amended, List.filterMap_cons,
    List.filterMap_nil]
  cases env "TEMP" <;> cases env "TMP" <;> cases env "TMPDIR" <;>
    cases env "SYSTEMROOT" <;> cases env "USERPROFILE" <;>
    cases env "CD" <;> rfl

/-- C7: the attempt budget.  (i) Any single base path triggers at most
100 name generations: each attempt — length-skip, collision, failed or
successful creation alike — consumes exactly 8 `rand` values, and the
cursor after `tryBase` with the source's budget of 100 has advanced by
at most `8 * 100`.  (ii) An empty candidate list makes the loop fail
immediately with no attempt.  (iii) Whenever the loop over all
candidates ends without a success, `create()` returns `false` and
leaves the handle (hence its invalidity) and the filesystem unchanged. -/
theorem claim_C7 (d : tempfile.directory) (fs : Fsys) (env : Env)
    (rs : Nat → Nat) (c : Nat)
    (h : (createLoop fs d.pref rs (paths_to_try env) c).1 = none) :
    (∀ b c0, (tryBase fs d.pref b rs c0 100).2 ≤ c0 + 8 * 100) ∧
    (∀ c0, createLoop fs d.pref rs [] c0 = (none, c0)) ∧
    (tempfile.directory.create d fs env rs c).1 = false ∧
    (tempfile.directory.create d fs env rs c).2.1 = d ∧
    (tempfile.directory.create d fs env rs c).2.2.1 = fs := by
  refine ⟨fun b c0 => tryBase_cursor_bound fs d.pref b rs 100 c0,
    fun c0 => rfl, ?_, ?_, ?_⟩ <;>
  · unfold tempfile.directory.create
    split
    · rfl
    · rcases hcl : createLoop fs d.pref rs (paths_to_try env) c
        with ⟨res, c1⟩
      rw [hcl] at h
      cases res with
      | none => rfl
      | some r => simp at h

/-- Witness for C7: a fresh handle with prefix `X`, no environment
variables (so the candidates are just `c:\temp` and `c:\tmp`), a
constant `rand` stream and a filesystem that already contains both
reachable names, so all `2 × 100` attempts collide and `create()`
fails. -/
theorem claim_C7_witness :
    (createLoop fsX "X" rsZero (paths_to_try envNone) 0).1 = none ∧
    ((∀ b c0, (tryBase fsX "X" b rsZero c0 100).2 ≤ c0 + 8 * 100) ∧
     (∀ c0, createLoop fsX "X" rsZero [] c0 = (none, c0)) ∧
     (tempfile.directory.create dirX fsX envNone rsZero 0).1 = false ∧
     (tempfile.directory.create dirX fsX envNone rsZero 0).2.1 = dirX ∧
     (tempfile.directory.create dirX fsX envNone rsZero 0).2.2.1 = fsX) := by
  have h : (createLoop fsX "X" rsZero (paths_to_try envNone) 0).1 = none := by
    decide
  exact ⟨h, claim_C7 dirX fsX envNone rsZero 0 h⟩

/-- C8: constructing a `scoped_directory` eagerly runs `create()`, so
immediately afterwards either the handle is good and its path is a
directory that now exists (and tearing it down removes that directory),
or the handle is still the freshly-constructed invalid one and the
filesystem is untouched.  Moreover the double teardown — the scoped
wrapper's destructor calling `remove()` followed by the base
destructor's `remove()` — is harmless for every handle and filesystem:
the second removal attempt always returns `false` and changes
nothing. -/
theorem claim_C8 (pre : String) (fs : Fsys) (env : Env)
    (rs : Nat → Nat) (c : Nat) :
    (((tempfile.scoped_directory.construct pre fs env rs c).1.good = true ∧
      (tempfile.scoped_directory.construct pre fs env rs c).1.path
        ∈ (tempfile.scoped_directory.construct pre fs env rs c).2.1.dirs ∧
      (tempfile.directory.remove
          (tempfile.scoped_directory.construct pre fs env rs c).1
          (tempfile.scoped_directory.construct pre fs env rs c).2.1).1
        = true ∧
      (tempfile.scoped_directory.construct pre fs env rs c).1.path
        ∉ (tempfile.directory.remove
            (tempfile.scoped_directory.construct pre fs env rs c).1
            (tempfile.scoped_directory.construct pre fs env rs c).2.1).2.2.dirs) ∨
     ((tempfile.scoped_directory.construct pre fs env rs c).1.good = false ∧
      (tempfile.scoped_directory.construct pre fs env rs c).1.path = "" ∧
      (tempfile.scoped_directory.construct pre fs env rs c).2.1 = fs)) ∧
    (∀ (d2 : tempfile.directory) (fs2 : Fsys),
      (tempfile.directory.remove (tempfile.directory.remove d2 fs2).2.1
          (tempfile.directory.remove d2 fs2).2.2).1 = false ∧
      (tempfile.directory.remove (tempfile.directory.remove d2 fs2).2.1
          (tempfile.directory.remove d2 fs2).2.2).2.2
        = (tempfile.directory.remove d2 fs2).2.2) := by
  refine ⟨?_, fun d2 fs2 => ⟨by rw [remove_twice], by rw [remove_twice]⟩⟩
  have hguard : (((tempfile.directory.construct pre).path != "")
      && (tempfile.directory.construct pre).good) = false := by
    simp [tempfile.directory.construct]
  rcases hcl : createLoop fs pre rs (paths_to_try env) c with ⟨res, c1⟩
  cases res with
  | none =>
    right
    have hc2 : tempfile.scoped_directory.construct pre fs env rs c
        = (tempfile.directory.construct pre, fs, c1) := by
      unfold tempfile.scoped_directory.construct tempfile.directory.create
      rw [if_neg (by simp [hguard])]
      simp only [tempfile.directory.construct]
      rw [hcl]
    rw [hc2]
    exact ⟨rfl, rfl, rfl⟩
  | some r =>
    rcases r with ⟨p, fs1⟩
    left
    obtain ⟨b, hb, k, hkp, hmk, hfs1⟩ :=
      createLoop_some fs pre rs (paths_to_try env) c p fs1 (by rw [hcl])
    have hfs1' : fs1 = ⟨p :: fs.dirs, fs.files⟩ := by
      rw [hfs1, make_directory_true hmk]
    have hc2 : tempfile.scoped_directory.construct pre fs env rs c
        = (⟨true, pre, p⟩, fs1, c1) := by
      unfold tempfile.scoped_directory.construct tempfile.directory.create
      rw [if_neg (by simp [hguard])]
      simp only [tempfile.directory.construct]
      rw [hcl]
    rw [hc2]
    have hmem : p ∈ fs1.dirs := by
      rw [hfs1']; exact List.mem_cons_self _ _
    have hde : directory_exists fs1 p = true := by
      simp [directory_exists, hmem]
    have hrem : tempfile.directory.remove ⟨true, pre, p⟩ fs1
        = (true, ⟨true, pre, p⟩,
           remove_directory
             ((get_files_in_directory fs1 p).foldl remove_file fs1) p) := by
      simp [tempfile.directory.remove, hde]
    refine ⟨rfl, hmem, ?_, ?_⟩
    · rw [hrem]
    · rw [hrem]
      simp [remove_directory, List.mem_filter, isUnder]

/-- C2 counterexample: the underscore is in the `characters` alphabet
string (at index 36), yet no `rand` value can ever select it, because
the index used is `randrange(0, 36)` — `r % 36`, always at most 35.
Every one of the 36 reachable indices yields a non-underscore
character; in particular a `rand` stream of constant 36 (which would
reach the underscore if the full alphabet were used) produces
`aaaaaaaa`, and no name built from any seed value in `0..71` contains
an underscore anywhere. -/
theorem claim_C2_counterexample :
    '_' ∈ characters ∧
    random_name (fun _ => 36) 0 = "aaaaaaaa" ∧
    ((List.range 36).all
      (fun r => characters.getD (randrange 0 36 r) ' ' != '_')) = true ∧
    ((List.range 72).all (fun r =>
      (random_name (fun _ => r) 0).toList.all (fun ch => ch != '_')))
      = true := by decide

/-- C2 (amended): every successfully created entry's stored path is
`base ++ separator ++ prefix ++ name` for some candidate base, where
`name` is exactly 8 characters, each drawn from the 36-character
alphabet `[a-z0-9]` (`producible`, one symbol per residue class of
`randrange(0, 36)`, hence uniform over those 36 symbols, which are
pairwise distinct); the underscore, although present in the
`characters` string, is never drawn. -/
theorem claim_C2 (d : tempfile.directory) (fs : Fsys) (env : Env)
    (rs : Nat → Nat) (c : Nat)
    (h : (tempfile.directory.create d fs env rs c).1 = true) :
    ∃ b ∈ paths_to_try env, ∃ k,
      (tempfile.directory.create d fs env rs c).2.1.path
        = b ++ path_separator ++ d.pref ++ random_name rs k ∧
      (random_name rs k).length = 8 ∧
      (∀ ch ∈ (random_name rs k).toList, ch ∈ producible) ∧
      '_' ∈ characters ∧ '_' ∉ producible ∧
      producible.Nodup ∧ producible.length = 36 := by
  unfold tempfile.directory.create at h ⊢
  by_cases hg : (d.path != "" && d.good) = true
  · rw [if_pos hg] at h; cases h
  · rw [if_neg hg] at h ⊢
    rcases hcl : createLoop fs d.pref rs (paths_to_try env) c
      with ⟨res, c1⟩
    rw [hcl] at h
    cases res with
    | none => simp at h
    | some r =>
      rcases r with ⟨p, fs1⟩
      obtain ⟨b, hb, k, hkp, -, -⟩ :=
        createLoop_some fs d.pref rs (paths_to_try env) c p fs1 (by rw [hcl])
      refine ⟨b, hb, k, ?_, random_name_length rs k,
        random_name_mem_producible rs k, by decide, by decide, by decide,
        by decide⟩
      simpa using hkp

/-- Witness for C2 (amended): a concrete successful creation (prefix
`tmp`, `TEMP` set to `b`, empty filesystem, constant-zero `rand`
stream) whose stored path decomposes as required. -/
theorem claim_C2_witness :
    (tempfile.directory.create dirT fsEmpty envTempB rsZero 0).1 = true ∧
    (∃ b ∈ paths_to_try envTempB, ∃ k,
      (tempfile.directory.create dirT fsEmpty envTempB rsZero 0).2.1.path
        = b ++ path_separator ++ dirT.pref ++ random_name rsZero k ∧
      (random_name rsZero k).length = 8 ∧
      (∀ ch ∈ (random_name rsZero k).toList, ch ∈ producible) ∧
      '_' ∈ characters ∧ '_' ∉ producible ∧
      producible.Nodup ∧ producible.length = 36) := by
  have h : (tempfile.directory.create dirT fsEmpty envTempB rsZero 0).1
      = true := by decide
  exact ⟨h, claim_C2 dirT fsEmpty envTempB rsZero 0 h⟩
